import Mathlib

/-!
Verification of the family-budget backend core
(`src/backend/src/assets/lambdas/transactions-handler.ts` and
`src/backend/src/assets/lambdas/analytics-handler.ts`), shallowly embedded
in Lean.  Monetary amounts are modelled as rationals; JavaScript string
truthiness is modelled as non-emptiness; DynamoDB tables are modelled as
lists of records with key `(account, transactionId)`; the `uuidv4()` calls
are modelled as explicit fresh-identifier parameters.
-/

deriving instance DecidableEq for Except

namespace FamilyBudget

attribute [local semireducible] Rat.add Rat.mul Rat.sub Rat.inv

/-- The `Transaction` interface of `transactions-handler.ts`. -/
structure Transaction where
  account : String
  transactionId : String
  date : String
  description : String
  currency : String
  amount : ℚ
  fee : ℚ
  category : String
  transferId : Option String := none
  transferType : Option String := none
  relatedAccount : Option String := none
deriving DecidableEq

/-- Key equality on the DynamoDB composite key `(account, transactionId)`. -/
def sameKey (t u : Transaction) : Bool :=
  t.account == u.account && t.transactionId == u.transactionId

/-- `GetCommand` on the transactions table: point lookup by composite key. -/
def getItem (store : List Transaction) (account transactionId : String) : Option Transaction :=
  store.find? (fun t => t.account == account && t.transactionId == transactionId)

/-- `PutCommand` (and the effect of a full `UpdateCommand`): insert the item,
replacing any existing item with the same composite key. -/
def putItem (store : List Transaction) (item : Transaction) : List Transaction :=
  if store.any (fun t => sameKey t item) then
    store.map (fun t => if sameKey t item then item else t)
  else
    store ++ [item]

/-- `DeleteCommand`: remove the item with the given composite key. -/
def deleteItem (store : List Transaction) (account transactionId : String) : List Transaction :=
  store.filter (fun t => !(t.account == account && t.transactionId == transactionId))

/-- A parsed JSON request body.  Absent string fields are modelled as `""`
(which is exactly what JavaScript truthiness tests cannot distinguish), and
absent numeric fields as `none` (JavaScript `undefined`). -/
structure RequestBody where
  account : String := ""
  date : String := ""
  description : String := ""
  currency : String := ""
  amount : Option ℚ := none
  fee : Option ℚ := none
  category : String := ""
  fromAccount : String := ""
  toAccount : String := ""
  transferId : Option String := none
  transferType : Option String := none
  relatedAccount : Option String := none
deriving DecidableEq

/-- JavaScript falsiness of a possibly-absent string
(`!x` is true for both `undefined` and `""`). -/
def strFalsy (o : Option String) : Bool :=
  o.getD "" == ""

/-- JavaScript falsiness of a possibly-absent number
(`!x` is true for `undefined` and for `0`). -/
def numFalsy (o : Option ℚ) : Bool :=
  match o with
  | none => true
  | some q => q == 0

/-- Validation errors of `createTransfer`. -/
inductive TransferError where
  | missingFields
  | sameAccount
  | badCurrency
deriving DecidableEq

/-- `createTransfer` (`transactions-handler.ts`, lines 341–443), after JSON
parsing, with the three `uuidv4()` results passed in explicitly.  Returns the
handler outcome together with the table contents after the call. -/
def createTransfer (store : List Transaction) (b : RequestBody)
    (transferId outgoingTransactionId incomingTransactionId : String) :
    Except TransferError (Transaction × Transaction) × List Transaction :=
  if b.fromAccount == "" || b.toAccount == "" || numFalsy b.amount
      || b.date == "" || b.description == "" then
    (.error .missingFields, store)
  else if b.fromAccount == b.toAccount then
    (.error .sameAccount, store)
  else if !(["GBP", "EUR"].contains b.currency) then
    (.error .badCurrency, store)
  else
    let amount := b.amount.getD 0
    let outgoingTransaction : Transaction :=
      { account := b.fromAccount
        transactionId := outgoingTransactionId
        date := b.date
        description := b.description
        currency := b.currency
        amount := -|amount|
        fee := b.fee.getD 0
        category := "transfer"
        transferId := some transferId
        transferType := some "outgoing"
        relatedAccount := some b.toAccount }
    let incomingTransaction : Transaction :=
      { account := b.toAccount
        transactionId := incomingTransactionId
        date := b.date
        description := b.description
        currency := b.currency
        amount := |amount|
        fee := 0
        category := "transfer"
        transferId := some transferId
        transferType := some "incoming"
        relatedAccount := some b.fromAccount }
    (.ok (outgoingTransaction, incomingTransaction),
      putItem (putItem store outgoingTransaction) incomingTransaction)

/-- Errors of `convertTransactionToTransfer`. -/
inductive ConvertError where
  | missingParams
  | missingToAccount
  | sameAccount
  | notFound
  | alreadyTransfer
deriving DecidableEq

/-- `convertTransactionToTransfer` (`transactions-handler.ts`, lines 445–616),
after JSON parsing, with the two `uuidv4()` results passed in explicitly.
Returns the handler outcome (the updated original record and the freshly
created incoming leg) together with the table contents after the call. -/
def convertTransactionToTransfer (store : List Transaction)
    (pathTransactionId queryAccount : Option String) (body : Option RequestBody)
    (transferId incomingTransactionId : String) :
    Except ConvertError (Transaction × Transaction) × List Transaction :=
  if strFalsy pathTransactionId || strFalsy queryAccount || body.isNone then
    (.error .missingParams, store)
  else
    let toAccount := (body.getD {}).toAccount
    let account := queryAccount.getD ""
    let transactionId := pathTransactionId.getD ""
    if toAccount == "" then
      (.error .missingToAccount, store)
    else if account == toAccount then
      (.error .sameAccount, store)
    else
      match getItem store account transactionId with
      | none => (.error .notFound, store)
      | some originalTransaction =>
        if originalTransaction.transferType.isSome then
          (.error .alreadyTransfer, store)
        else
          let updatedTransaction : Transaction :=
            { originalTransaction with
                transferId := some transferId
                transferType := some "outgoing"
                relatedAccount := some toAccount
                category := "transfer"
                amount := -|originalTransaction.amount| }
          let incomingTransaction : Transaction :=
            { account := toAccount
              transactionId := incomingTransactionId
              date := originalTransaction.date
              description := originalTransaction.description
              currency := originalTransaction.currency
              amount := |originalTransaction.amount|
              fee := 0
              category := "transfer"
              transferId := some transferId
              transferType := some "incoming"
              relatedAccount := some account }
          (.ok (updatedTransaction, incomingTransaction),
            putItem (putItem store updatedTransaction) incomingTransaction)

/-- Result of the bulk recategorization operation: the table contents after
the call, the number of rewritten records, and the response message. -/
structure BulkUpdateResult where
  store : List Transaction
  updatedCount : Nat
  message : String
deriving DecidableEq

/-- Validation error of `bulkUpdateByDescription`. -/
inductive BulkError where
  | missingFields
deriving DecidableEq

/-- Modelled from the spec: the lambda branch implementing
`POST /transactions/bulkUpdate` (`bulkUpdateByDescription`) is not present
under `src/` — only its API-route registration and its frontend caller are —
so this definition follows spec §4.2: require `account`, `description` and
`newCategory` to be present and non-empty; fetch the account's transactions;
if the account has none, succeed with count 0 and a distinct message; filter
to exact (case-sensitive) description matches; if there are none, succeed
with count 0 and a distinct message; otherwise rewrite each match's
`category` to `newCategory`, re-persisting the full record, and return the
number of rewritten records.  (The spec's updated-at stamp has no
counterpart on the backend `Transaction` record and batching does not change
the final table contents, so neither is modelled.) -/
def bulkUpdateByDescription (store : List Transaction)
    (account description newCategory : String) : Except BulkError BulkUpdateResult :=
  if account == "" || description == "" || newCategory == "" then
    .error .missingFields
  else
    let accountTransactions := store.filter (fun t => t.account == account)
    if accountTransactions.isEmpty then
      .ok ⟨store, 0, "No transactions found for this account"⟩
    else
      let isMatch := fun (t : Transaction) => t.account == account && t.description == description
      let matchedTxs := store.filter isMatch
      if matchedTxs.isEmpty then
        .ok ⟨store, 0, "No transactions matched the given description"⟩
      else
        .ok ⟨store.map (fun t => if isMatch t then { t with category := newCategory } else t),
          matchedTxs.length, "Bulk update completed"⟩

/-! ## Analytics aggregator (`analytics-handler.ts`) -/

/-- `Math.round`: for rationals this is exactly floor of `q + 1/2`
(JavaScript rounds half-way cases toward positive infinity).  Defined via
`Rat.floor` so that it evaluates by reduction. -/
def jsRound (q : ℚ) : ℤ :=
  (q + 1 / 2).floor

/-- `Math.round(q * 100) / 100`: rounding to cent precision. -/
def roundCents (q : ℚ) : ℚ :=
  (jsRound (q * 100) : ℚ) / 100

/-- A JavaScript `Date` reduced to its calendar components (the analytics
code only uses year, month and day; local time is taken to be UTC).
`month` is 0-based as in JavaScript. -/
structure JsDate where
  year : ℤ
  month : Nat
  day : Nat
deriving DecidableEq

/-- Whether a year is a leap year (Gregorian rules, as used by `Date`). -/
def isLeapYear (y : ℤ) : Bool :=
  y % 4 == 0 && (y % 100 != 0 || y % 400 == 0)

/-- Number of days of the 0-based month `m` of year `y`. -/
def daysInMonth (y : ℤ) (m : Nat) : Nat :=
  if m == 1 then (if isLeapYear y then 29 else 28)
  else if m == 3 || m == 5 || m == 8 || m == 10 then 30
  else 31

/-- JavaScript `Date` day-of-month normalization: a day count exceeding the
month's length rolls over into the following months (e.g. Feb 31 becomes
Mar 3).  Returns the normalized year and 0-based month.  The fuel bounds the
recursion; `fuel = d` always suffices. -/
def normalizeYM (fuel : Nat) (y : ℤ) (m : Nat) (d : Nat) : ℤ × Nat :=
  match fuel with
  | 0 => (y, m)
  | fuel + 1 =>
    if d > daysInMonth y m then
      if m == 11 then normalizeYM fuel (y + 1) 0 (d - daysInMonth y m)
      else normalizeYM fuel y (m + 1) (d - daysInMonth y m)
    else (y, m)

/-- The `YYYY-MM` string produced by `toISOString().slice(0, 7)`. -/
def monthKeyStr (y : ℤ) (m : Nat) : String :=
  toString y ++ "-" ++ (if m + 1 < 10 then "0" ++ toString (m + 1) else toString (m + 1))

/-- The month key produced in the initialization loop of
`calculateMonthlyTrends` for loop index `i`:
`new Date(currentDate)` followed by `setMonth(getMonth() - i)` and
`toISOString().slice(0, 7)`.  `setMonth` first renormalizes the month into
the year and then lets the (unchanged) day-of-month roll over. -/
def trailingMonthKey (today : JsDate) (i : Nat) : String :=
  let total : ℤ := today.year * 12 + (today.month : ℤ) - (i : ℤ)
  let y := Int.fdiv total 12
  let m : Nat := (total - 12 * y).toNat
  let ym := normalizeYM today.day y m today.day
  monthKeyStr ym.1 ym.2

/-- JavaScript `Map.set`: overwrite the value at an existing key in place,
otherwise append the new entry (insertion order is preserved). -/
def alSet {α : Type} : List (String × α) → String → α → List (String × α)
  | [], k, v => [(k, v)]
  | (k', v') :: rest, k, v =>
    if k' == k then (k, v) :: rest else (k', v') :: alSet rest k v

/-- JavaScript `Map.get` (with `Map.has` given by `Option.isSome`). -/
def alGet? {α : Type} : List (String × α) → String → Option α
  | [], _ => none
  | (k', v') :: rest, k => if k' == k then some v' else alGet? rest k

/-- The initial monthly-trends map: the loop `for (let i = 11; i >= 0; i--)`
inserting `{income: 0, expenses: 0}` at each computed month key. -/
def initMonthly (today : JsDate) : List (String × (ℚ × ℚ)) :=
  (List.range 12).foldl (fun acc j => alSet acc (trailingMonthKey today (11 - j)) (0, 0)) []

/-- Processing one transaction in `calculateMonthlyTrends`: its month key is
`new Date(transaction.date).toISOString().slice(0, 7)`, i.e. the first seven
characters of its ISO date string; amounts add their magnitude to `income`
when positive, otherwise to `expenses`, and only keys present in the map are
updated. -/
def addTransactionToTrends (m : List (String × (ℚ × ℚ))) (t : Transaction) :
    List (String × (ℚ × ℚ)) :=
  let monthKey := t.date.take 7
  match alGet? m monthKey with
  | none => m
  | some data =>
    if t.amount > 0 then alSet m monthKey (data.1 + |t.amount|, data.2)
    else alSet m monthKey (data.1, data.2 + |t.amount|)

/-- One bucket of the monthly-trends output. -/
structure MonthlyData where
  month : String
  income : ℚ
  expenses : ℚ
deriving DecidableEq

/-- The short month names used by
`toLocaleDateString('en-US', { month: 'short', year: 'numeric' })`,
indexed by 1-based month number. -/
def monthShortName (m1 : Nat) : String :=
  ["Jan", "Feb", "Mar", "Apr", "May", "Jun",
   "Jul", "Aug", "Sep", "Oct", "Nov", "Dec"].getD (m1 - 1) ""

/-- `formatMonthLabel`: split the `YYYY-MM` key and render it as e.g.
`Mar 2024`. -/
def formatMonthLabel (monthKey : String) : String :=
  match monthKey.splitOn "-" with
  | [year, month] =>
    monthShortName (month.toNat?.getD 0) ++ " " ++ toString (year.toNat?.getD 0)
  | _ => monthKey

/-- `calculateMonthlyTrends` (`analytics-handler.ts`, lines 182–217),
with the wall-clock current date passed in explicitly. -/
def calculateMonthlyTrends (today : JsDate) (transactions : List Transaction) :
    List MonthlyData :=
  let monthlyData := transactions.foldl addTransactionToTrends (initMonthly today)
  monthlyData.map (fun p =>
    ⟨formatMonthLabel p.1, roundCents p.2.1, roundCents p.2.2⟩)

/-- One entry of the category-breakdown output. -/
structure CategoryData where
  categoryId : String
  category : String
  amount : ℚ
  percentage : ℚ
deriving DecidableEq

/-- The accumulation step of `calculateCategoryBreakdown`: expense
transactions (amount < 0) add their magnitude to their category's total and
to the running total of expenses. -/
def expenseStep (acc : List (String × ℚ) × ℚ) (t : Transaction) :
    List (String × ℚ) × ℚ :=
  if t.amount < 0 then
    let amount := |t.amount|
    let current := (alGet? acc.1 t.category).getD 0
    (alSet acc.1 t.category (current + amount), acc.2 + amount)
  else acc

/-- The `categoryTotals` map and `totalExpenses` accumulator of
`calculateCategoryBreakdown` after the `forEach` loop. -/
def expenseTotals (transactions : List Transaction) : List (String × ℚ) × ℚ :=
  transactions.foldl expenseStep ([], 0)

/-- The sum of the values of an association map (used to relate the
per-category totals to the running `totalExpenses` accumulator). -/
def sumVals (m : List (String × ℚ)) : ℚ :=
  (m.map Prod.snd).sum

/-- `calculateCategoryBreakdown` (`analytics-handler.ts`, lines 219–243):
per-category expense totals, display name resolution through the fetched
category map, cent rounding, percentage of total expenses, and a sort that
is descending by amount (`.sort((a, b) => b.amount - a.amount)`, modelled by
the stable `mergeSort` with the comparator's induced order). -/
def calculateCategoryBreakdown (transactions : List Transaction)
    (categoryMap : List (String × String)) : List CategoryData :=
  let totals := expenseTotals transactions
  let breakdown : List CategoryData := totals.1.map (fun p =>
    { categoryId := p.1
      category := (alGet? categoryMap p.1).getD p.1
      amount := roundCents p.2
      percentage :=
        if totals.2 > 0 then (jsRound (p.2 / totals.2 * 10000) : ℚ) / 100 else 0 })
  breakdown.mergeSort (fun a b => decide (b.amount ≤ a.amount))

/-- The summary record of the analytics response. -/
structure Summary where
  totalIncome : ℚ
  totalExpenses : ℚ
  balance : ℚ
  transactionCount : Nat
deriving DecidableEq

/-- `calculateSummary` (`analytics-handler.ts`, lines 245–264). -/
def calculateSummary (transactions : List Transaction) : Summary :=
  let totals := transactions.foldl
    (fun (p : ℚ × ℚ) t =>
      if t.amount > 0 then (p.1 + |t.amount|, p.2) else (p.1, p.2 + |t.amount|))
    (0, 0)
  { totalIncome := roundCents totals.1
    totalExpenses := roundCents totals.2
    balance := roundCents (totals.1 - totals.2)
    transactionCount := transactions.length }

/-- The full analytics payload. -/
structure AnalyticsData where
  monthlyTrends : List MonthlyData
  categoryBreakdown : List CategoryData
  summary : Summary
deriving DecidableEq

/-! ## HTTP boundary -/

/-- The serialized JSON response bodies, represented symbolically
(`JSON.stringify` of the respective payloads); `empty` is the literal
empty-string body. -/
inductive ResponseBody where
  | empty
  | errorMsg (msg : String)
  | transactionJson (t : Transaction)
  | transactionsList (transactions : List Transaction) (count : Nat)
  | transferCreated (transferId : String) (outgoing incoming : Transaction)
  | convertResult (outgoing incoming : Transaction) (transferId : String)
  | attributes (t : Transaction)
  | analytics (a : AnalyticsData)
deriving DecidableEq

/-- An `APIGatewayProxyResult`. -/
structure ApiResponse where
  statusCode : Nat
  headers : List (String × String)
  body : ResponseBody
deriving DecidableEq

/-- The `corsHeaders` constant shared by both handlers. -/
def corsHeaders : List (String × String) :=
  [("Content-Type", "application/json"),
   ("Access-Control-Allow-Origin", "*"),
   ("Access-Control-Allow-Headers", "Content-Type"),
   ("Access-Control-Allow-Methods", "GET,POST,PUT,DELETE,OPTIONS")]

/-- An inbound `APIGatewayProxyEvent`, reduced to the fields the handlers
read.  `body` is the parsed JSON body (`none` when absent); `updates` inside
`RequestBody` is not needed, the generic update payload is carried
separately in `updateFields`. -/
structure ApiEvent where
  httpMethod : String
  path : String
  pathTransactionId : Option String := none
  queryAccount : Option String := none
  queryCategory : Option String := none
  queryDate : Option String := none
  body : Option RequestBody := none
  updateFields : List (String × String) := []
deriving DecidableEq

/-- `createTransaction` (`transactions-handler.ts`, lines 109–156). -/
def createTransactionHttp (store : List Transaction) (body : Option RequestBody)
    (transactionId : String) : ApiResponse × List Transaction :=
  match body with
  | none => (⟨400, corsHeaders, .errorMsg "Request body is required"⟩, store)
  | some b =>
    if b.account == "" || b.date == "" || b.description == "" || b.currency == ""
        || b.amount.isNone || b.fee.isNone || b.category == "" then
      (⟨400, corsHeaders, .errorMsg "Missing required fields"⟩, store)
    else if !(["GBP", "EUR"].contains b.currency) then
      (⟨400, corsHeaders, .errorMsg "Currency must be GBP or EUR"⟩, store)
    else
      let newTransaction : Transaction :=
        { account := b.account
          transactionId := transactionId
          date := b.date
          description := b.description
          currency := b.currency
          amount := b.amount.getD 0
          fee := b.fee.getD 0
          category := b.category
          transferId := b.transferId
          transferType := b.transferType
          relatedAccount := b.relatedAccount }
      (⟨201, corsHeaders, .transactionJson newTransaction⟩, putItem store newTransaction)

/-- `getTransactions` (`transactions-handler.ts`, lines 158–220); the
`QueryCommand`s over the table and its secondary indexes are the evident
filters. -/
def getTransactionsHttp (store : List Transaction)
    (queryAccount queryCategory queryDate : Option String) :
    ApiResponse × List Transaction :=
  if strFalsy queryAccount then
    (⟨400, corsHeaders, .errorMsg "account parameter is required"⟩, store)
  else
    let account := queryAccount.getD ""
    let items :=
      match queryCategory with
      | some category => store.filter (fun t => t.account == account && t.category == category)
      | none =>
        match queryDate with
        | some date => store.filter (fun t => t.account == account && t.date == date)
        | none => store.filter (fun t => t.account == account)
    (⟨200, corsHeaders, .transactionsList items items.length⟩, store)

/-- `getTransaction` (`transactions-handler.ts`, lines 222–255). -/
def getTransactionHttp (store : List Transaction)
    (pathTransactionId queryAccount : Option String) : ApiResponse × List Transaction :=
  if strFalsy pathTransactionId || strFalsy queryAccount then
    (⟨400, corsHeaders, .errorMsg "transactionId and account parameters are required"⟩, store)
  else
    match getItem store (queryAccount.getD "") (pathTransactionId.getD "") with
    | none => (⟨404, corsHeaders, .errorMsg "Transaction not found"⟩, store)
    | some item => (⟨200, corsHeaders, .transactionJson item⟩, store)

/-- Application of one update key/value pair to a transaction record,
modelling one `SET #attr = :val` clause of the `UpdateCommand` built by
`updateTransaction` (string-valued attributes only; the key attributes were
already filtered out by the caller). -/
def applyUpdateField (t : Transaction) (kv : String × String) : Transaction :=
  if kv.1 == "date" then { t with date := kv.2 }
  else if kv.1 == "description" then { t with description := kv.2 }
  else if kv.1 == "currency" then { t with currency := kv.2 }
  else if kv.1 == "category" then { t with category := kv.2 }
  else if kv.1 == "transferId" then { t with transferId := some kv.2 }
  else if kv.1 == "transferType" then { t with transferType := some kv.2 }
  else if kv.1 == "relatedAccount" then { t with relatedAccount := some kv.2 }
  else t

/-- `updateTransaction` (`transactions-handler.ts`, lines 257–312): key
attributes are excluded from the update expression; with no remaining
fields the request is rejected; otherwise the item is updated (DynamoDB
`UpdateCommand` creates the item from its key when absent). -/
def updateTransactionHttp (store : List Transaction)
    (pathTransactionId queryAccount : Option String) (body : Option RequestBody)
    (updateFields : List (String × String)) : ApiResponse × List Transaction :=
  if strFalsy pathTransactionId || strFalsy queryAccount || body.isNone then
    (⟨400, corsHeaders, .errorMsg "transactionId, account, and request body are required"⟩, store)
  else
    let validFields := updateFields.filter
      (fun kv => !(kv.1 == "account") && !(kv.1 == "transactionId"))
    if validFields.isEmpty then
      (⟨400, corsHeaders, .errorMsg "No valid fields to update"⟩, store)
    else
      let account := queryAccount.getD ""
      let transactionId := pathTransactionId.getD ""
      let base :=
        match getItem store account transactionId with
        | some t => t
        | none =>
          { account := account, transactionId := transactionId, date := "",
            description := "", currency := "", amount := 0, fee := 0, category := "" }
      let updated := validFields.foldl applyUpdateField base
      (⟨200, corsHeaders, .attributes updated⟩, putItem store updated)

/-- `deleteTransaction` (`transactions-handler.ts`, lines 314–339). -/
def deleteTransactionHttp (store : List Transaction)
    (pathTransactionId queryAccount : Option String) : ApiResponse × List Transaction :=
  if strFalsy pathTransactionId || strFalsy queryAccount then
    (⟨400, corsHeaders, .errorMsg "transactionId and account parameters are required"⟩, store)
  else
    (⟨204, corsHeaders, .empty⟩,
      deleteItem store (queryAccount.getD "") (pathTransactionId.getD ""))

/-- The HTTP wrapping of `createTransfer`: error-to-status mapping and the
201 success payload. -/
def createTransferHttp (store : List Transaction) (body : Option RequestBody)
    (transferId outgoingTransactionId incomingTransactionId : String) :
    ApiResponse × List Transaction :=
  match body with
  | none => (⟨400, corsHeaders, .errorMsg "Request body is required"⟩, store)
  | some b =>
    let r := createTransfer store b transferId outgoingTransactionId incomingTransactionId
    match r.1 with
    | .error .missingFields =>
      (⟨400, corsHeaders,
        .errorMsg "Missing required fields: fromAccount, toAccount, amount, date, description"⟩, r.2)
    | .error .sameAccount =>
      (⟨400, corsHeaders, .errorMsg "Cannot transfer to the same account"⟩, r.2)
    | .error .badCurrency =>
      (⟨400, corsHeaders, .errorMsg "Currency must be GBP or EUR"⟩, r.2)
    | .ok legs =>
      (⟨201, corsHeaders, .transferCreated transferId legs.1 legs.2⟩, r.2)

/-- The HTTP wrapping of `convertTransactionToTransfer`: error-to-status
mapping and the 200 success payload. -/
def convertTransactionToTransferHttp (store : List Transaction)
    (pathTransactionId queryAccount : Option String) (body : Option RequestBody)
    (transferId incomingTransactionId : String) : ApiResponse × List Transaction :=
  let r := convertTransactionToTransfer store pathTransactionId queryAccount body
    transferId incomingTransactionId
  match r.1 with
  | .error .missingParams =>
    (⟨400, corsHeaders, .errorMsg "transactionId, account, and request body are required"⟩, r.2)
  | .error .missingToAccount =>
    (⟨400, corsHeaders, .errorMsg "toAccount is required"⟩, r.2)
  | .error .sameAccount =>
    (⟨400, corsHeaders, .errorMsg "Cannot transfer to the same account"⟩, r.2)
  | .error .notFound =>
    (⟨404, corsHeaders, .errorMsg "Transaction not found"⟩, r.2)
  | .error .alreadyTransfer =>
    (⟨400, corsHeaders, .errorMsg "Transaction is already a transfer"⟩, r.2)
  | .ok legs =>
    (⟨200, corsHeaders, .convertResult legs.1 legs.2 transferId⟩, r.2)

/-- The routing switch of the transactions handler
(`transactions-handler.ts`, lines 42–107), with the up-to-three `uuidv4()`
results passed in explicitly. -/
def transactionsHandler (e : ApiEvent) (store : List Transaction)
    (uuid1 uuid2 uuid3 : String) : ApiResponse × List Transaction :=
  if e.httpMethod == "OPTIONS" then
    (⟨200, corsHeaders, .empty⟩, store)
  else if e.httpMethod == "POST" then
    if e.path == "/transactions" then
      createTransactionHttp store e.body uuid1
    else if e.path == "/transactions/transfer" then
      createTransferHttp store e.body uuid1 uuid2 uuid3
    else
      (⟨404, corsHeaders, .errorMsg "Not found"⟩, store)
  else if e.httpMethod == "GET" then
    if e.path == "/transactions" then
      getTransactionsHttp store e.queryAccount e.queryCategory e.queryDate
    else if e.path.startsWith "/transactions/" then
      getTransactionHttp store e.pathTransactionId e.queryAccount
    else
      (⟨404, corsHeaders, .errorMsg "Not found"⟩, store)
  else if e.httpMethod == "PUT" then
    if e.path.startsWith "/transactions/" && e.path.endsWith "/convert-to-transfer" then
      convertTransactionToTransferHttp store e.pathTransactionId e.queryAccount e.body uuid1 uuid2
    else if e.path.startsWith "/transactions/" then
      updateTransactionHttp store e.pathTransactionId e.queryAccount e.body e.updateFields
    else
      (⟨404, corsHeaders, .errorMsg "Not found"⟩, store)
  else if e.httpMethod == "DELETE" then
    if e.path.startsWith "/transactions/" then
      deleteTransactionHttp store e.pathTransactionId e.queryAccount
    else
      (⟨404, corsHeaders, .errorMsg "Not found"⟩, store)
  else
    (⟨405, corsHeaders, .errorMsg "Method not allowed"⟩, store)

/-- `getAnalytics` (`analytics-handler.ts`, lines 133–180), with the fetched
category-name map and the wall-clock current date passed in explicitly. -/
def getAnalyticsHttp (store : List Transaction) (queryAccount : Option String)
    (categoryMap : List (String × String)) (today : JsDate) : ApiResponse :=
  if strFalsy queryAccount then
    ⟨400, corsHeaders, .errorMsg "account parameter is required"⟩
  else
    let account := queryAccount.getD ""
    let transactions := store.filter (fun t => t.account == account)
    ⟨200, corsHeaders, .analytics
      { monthlyTrends := calculateMonthlyTrends today transactions
        categoryBreakdown := calculateCategoryBreakdown transactions categoryMap
        summary := calculateSummary transactions }⟩

/-- The routing switch of the analytics handler
(`analytics-handler.ts`, lines 90–131). -/
def analyticsHandler (e : ApiEvent) (store : List Transaction)
    (categoryMap : List (String × String)) (today : JsDate) : ApiResponse :=
  if e.httpMethod == "OPTIONS" then
    ⟨200, corsHeaders, .empty⟩
  else if e.httpMethod == "GET" then
    if e.path == "/analytics" then
      getAnalyticsHttp store e.queryAccount categoryMap today
    else
      ⟨404, corsHeaders, .errorMsg "Not found"⟩
  else
    ⟨405, corsHeaders, .errorMsg "Method not allowed"⟩

/-! ## Concrete instances for the witnesses -/

/-- A concrete valid transfer request (with a negative supplied amount). -/
def wTransferBody : RequestBody :=
  { fromAccount := "acc1", toAccount := "acc2", amount := some (-25),
    date := "2024-01-15", description := "move", currency := "GBP", fee := some 2 }

/-- The outgoing leg `createTransfer` builds for `wTransferBody`. -/
def wOutgoing : Transaction :=
  { account := "acc1", transactionId := "out1", date := "2024-01-15",
    description := "move", currency := "GBP", amount := -25, fee := 2,
    category := "transfer", transferId := some "tr1",
    transferType := some "outgoing", relatedAccount := some "acc2" }

/-- The incoming leg `createTransfer` builds for `wTransferBody`. -/
def wIncoming : Transaction :=
  { account := "acc2", transactionId := "in1", date := "2024-01-15",
    description := "move", currency := "GBP", amount := 25, fee := 0,
    category := "transfer", transferId := some "tr1",
    transferType := some "incoming", relatedAccount := some "acc1" }

/-- A concrete plain transaction (no transferType). -/
def wPlainTxn : Transaction :=
  { account := "acc1", transactionId := "t1", date := "2024-03-15",
    description := "groceries", currency := "GBP", amount := -50, fee := 1,
    category := "cat-food" }

/-- The in-place promotion of `wPlainTxn` to an outgoing leg. -/
def wPromoted : Transaction :=
  { account := "acc1", transactionId := "t1", date := "2024-03-15",
    description := "groceries", currency := "GBP", amount := -50, fee := 1,
    category := "transfer", transferId := some "tr2",
    transferType := some "outgoing", relatedAccount := some "acc2" }

/-- The incoming leg created when `wPlainTxn` is promoted. -/
def wPromotedIncoming : Transaction :=
  { account := "acc2", transactionId := "in2", date := "2024-03-15",
    description := "groceries", currency := "GBP", amount := 50, fee := 0,
    category := "transfer", transferId := some "tr2",
    transferType := some "incoming", relatedAccount := some "acc1" }

/-- A concrete transaction that is already a transfer leg. -/
def wAlreadyLeg : Transaction :=
  { account := "acc1", transactionId := "t2", date := "2024-04-01",
    description := "old transfer", currency := "EUR", amount := -10, fee := 0,
    category := "transfer", transferId := some "old",
    transferType := some "outgoing", relatedAccount := some "acc3" }

/-- A concrete self-transfer request. -/
def wSelfBody : RequestBody :=
  { fromAccount := "acc1", toAccount := "acc1", amount := some 10,
    date := "2024-01-01", description := "self", currency := "GBP" }

/-- A concrete transfer request whose amount field is present but zero. -/
def wZeroAmountBody : RequestBody :=
  { fromAccount := "acc1", toAccount := "acc2", amount := some 0,
    date := "2024-01-01", description := "zero", currency := "GBP" }

/-- A concrete transaction matched by the bulk-update witness. -/
def wCoffee1 : Transaction :=
  { account := "acc1", transactionId := "a", date := "2024-01-01",
    description := "coffee", currency := "GBP", amount := -3, fee := 0,
    category := "misc" }

/-- A concrete transaction with a different description. -/
def wTea : Transaction :=
  { account := "acc1", transactionId := "b", date := "2024-01-02",
    description := "tea", currency := "GBP", amount := -2, fee := 0,
    category := "misc" }

/-- A concrete transaction in a different account with a matching
description. -/
def wCoffee2 : Transaction :=
  { account := "acc2", transactionId := "c", date := "2024-01-03",
    description := "coffee", currency := "GBP", amount := -4, fee := 0,
    category := "misc" }

/-- A concrete OPTIONS preflight request. -/
def wOptionsEvent : ApiEvent :=
  { httpMethod := "OPTIONS", path := "/transactions" }

/-! ## Store lemmas -/

theorem sameKey_self (t : Transaction) : sameKey t t = true := by
  simp [sameKey]

theorem sameKey_eq_true_iff {t u : Transaction} :
    sameKey t u = true ↔ t.account = u.account ∧ t.transactionId = u.transactionId := by
  simp [sameKey]

theorem getItem_eq_find? (store : List Transaction) (i : Transaction) :
    getItem store i.account i.transactionId = store.find? (fun t => sameKey t i) := rfl

theorem find?_map_overwrite (l : List Transaction) (i : Transaction)
    (h : l.any (fun t => sameKey t i) = true) :
    (l.map (fun t => if sameKey t i then i else t)).find? (fun t => sameKey t i) = some i := by
  induction l with
  | nil => simp at h
  | cons t ts ih =>
    by_cases hk : sameKey t i = true
    · simp [hk, sameKey_self]
    · simp only [List.any_cons, hk, Bool.false_or] at h
      simp [hk, ih h]

theorem find?_append_singleton_of_none (l : List Transaction) (i : Transaction)
    (h : l.any (fun t => sameKey t i) = false) :
    (l ++ [i]).find? (fun t => sameKey t i) = some i := by
  have h' : l.find? (fun t => sameKey t i) = none := by
    rw [List.find?_eq_none]
    intro x hx
    simp only [List.any_eq_false] at h
    exact h x hx
  simp [h', sameKey_self]

/-- After a put, looking the item up by its own key returns the item. -/
theorem getItem_putItem_self (store : List Transaction) (i : Transaction) :
    getItem (putItem store i) i.account i.transactionId = some i := by
  unfold putItem
  split
  · rename_i h
    rw [getItem_eq_find?]
    exact find?_map_overwrite store i h
  · rename_i h
    rw [getItem_eq_find?]
    exact find?_append_singleton_of_none store i (Bool.eq_false_iff.mpr h)

theorem find?_map_overwrite_other (l : List Transaction) (i : Transaction)
    (q : Transaction → Bool) (hqi : q i = false)
    (hkeys : ∀ t, sameKey t i = true → q t = false) :
    (l.map (fun t => if sameKey t i then i else t)).find? q = l.find? q := by
  induction l with
  | nil => rfl
  | cons t ts ih =>
    by_cases hk : sameKey t i = true
    · have hqt : q t = false := hkeys t hk
      simp only [List.map_cons, if_pos hk]
      rw [List.find?_cons_of_neg _ (by simp [hqi]),
        List.find?_cons_of_neg _ (by simp [hqt])]
      exact ih
    · simp only [List.map_cons, if_neg hk]
      by_cases hqt : q t = true
      · rw [List.find?_cons_of_pos _ hqt, List.find?_cons_of_pos _ hqt]
      · rw [List.find?_cons_of_neg _ hqt, List.find?_cons_of_neg _ hqt]
        exact ih

/-- A put does not change lookups at any other key. -/
theorem getItem_putItem_other (store : List Transaction) (i : Transaction)
    (account transactionId : String)
    (h : ¬(account = i.account ∧ transactionId = i.transactionId)) :
    getItem (putItem store i) account transactionId = getItem store account transactionId := by
  have hqi : (i.account == account && i.transactionId == transactionId) = false := by
    cases hb : (i.account == account && i.transactionId == transactionId) with
    | false => rfl
    | true =>
      simp only [Bool.and_eq_true, beq_iff_eq] at hb
      exact absurd ⟨hb.1.symm, hb.2.symm⟩ h
  unfold putItem
  split
  · unfold getItem
    apply find?_map_overwrite_other
    · exact hqi
    · intro t hk
      have hkey := sameKey_eq_true_iff.mp hk
      show (t.account == account && t.transactionId == transactionId) = false
      rw [hkey.1, hkey.2]
      exact hqi
  · unfold getItem
    rw [List.find?_append]
    have : [i].find? (fun t => t.account == account && t.transactionId == transactionId)
        = none := by
      simp only [List.find?]
      rw [hqi]
    rw [this, Option.or_none]

/-- A successful point lookup returns a record whose key fields match the
queried key. -/
theorem getItem_some_keys {store : List Transaction} {account transactionId : String}
    {t : Transaction} (h : getItem store account transactionId = some t) :
    t.account = account ∧ t.transactionId = transactionId := by
  unfold getItem at h
  have := List.find?_some h
  simpa [Bool.and_eq_true, beq_iff_eq] using this

/-- C1: for every valid createTransfer request with amount A (any sign), the
persisted outgoing leg has amount −|A| and is written to `fromAccount`, the
persisted incoming leg has amount +|A| and is written to `toAccount`, and
both legs carry the same freshly generated transferId, category
`"transfer"`, transferType `outgoing`/`incoming`, and relatedAccount fields
pointing at each other's account. -/
theorem createTransfer_legs_correct
    (store : List Transaction) (b : RequestBody)
    (transferId outgoingTransactionId incomingTransactionId : String)
    (outgoing incoming : Transaction)
    (h : (createTransfer store b transferId outgoingTransactionId
      incomingTransactionId).1 = .ok (outgoing, incoming)) :
    outgoing.account = b.fromAccount ∧
    outgoing.amount = -|b.amount.getD 0| ∧
    incoming.account = b.toAccount ∧
    incoming.amount = |b.amount.getD 0| ∧
    outgoing.transferId = some transferId ∧
    incoming.transferId = some transferId ∧
    outgoing.category = "transfer" ∧
    incoming.category = "transfer" ∧
    outgoing.transferType = some "outgoing" ∧
    incoming.transferType = some "incoming" ∧
    outgoing.relatedAccount = some b.toAccount ∧
    incoming.relatedAccount = some b.fromAccount ∧
    getItem (createTransfer store b transferId outgoingTransactionId
      incomingTransactionId).2 b.fromAccount outgoingTransactionId = some outgoing ∧
    getItem (createTransfer store b transferId outgoingTransactionId
      incomingTransactionId).2 b.toAccount incomingTransactionId = some incoming := by
  unfold createTransfer at h ⊢
  split at h
  · simp at h
  · split at h
    · simp at h
    · split at h
      · simp at h
      · rename_i hmiss hsame hcur
        simp only [Except.ok.injEq, Prod.mk.injEq] at h
        obtain ⟨ho, hi⟩ := h
        subst ho hi
        have hne : b.fromAccount ≠ b.toAccount := by
          intro hcontra
          simp [hcontra] at hsame
        refine ⟨rfl, rfl, rfl, rfl, rfl, rfl, rfl, rfl, rfl, rfl, rfl, rfl, ?_, ?_⟩
        · rw [if_neg hmiss, if_neg hsame, if_neg hcur]
          rw [getItem_putItem_other]
          · exact getItem_putItem_self _ _
          · intro hcontra
            exact hne hcontra.1
        · rw [if_neg hmiss, if_neg hsame, if_neg hcur]
          exact getItem_putItem_self _ _

/-- C3: for every existing transaction with no transferType,
convertTransactionToTransfer updates that record in place to
transferType = outgoing, category `"transfer"`, relatedAccount = toAccount,
a freshly generated transferId, and amount forced to −|originalAmount|, and
creates one new transaction in toAccount with the same date, description and
currency, amount +|originalAmount|, fee 0, transferType = incoming,
relatedAccount = account, the same transferId, and a freshly generated
transactionId. -/
theorem convertTransactionToTransfer_promotes
    (store : List Transaction) (account transactionId : String) (b : RequestBody)
    (transferId incomingTransactionId : String) (orig : Transaction)
    (hacc : account ≠ "") (htid : transactionId ≠ "") (hto : b.toAccount ≠ "")
    (hne : account ≠ b.toAccount)
    (hget : getItem store account transactionId = some orig)
    (hplain : orig.transferType = none) :
    (convertTransactionToTransfer store (some transactionId) (some account) (some b)
        transferId incomingTransactionId).1
      = .ok
        ({ orig with
            transferId := some transferId
            transferType := some "outgoing"
            relatedAccount := some b.toAccount
            category := "transfer"
            amount := -|orig.amount| },
         { account := b.toAccount
           transactionId := incomingTransactionId
           date := orig.date
           description := orig.description
           currency := orig.currency
           amount := |orig.amount|
           fee := 0
           category := "transfer"
           transferId := some transferId
           transferType := some "incoming"
           relatedAccount := some account }) ∧
    getItem (convertTransactionToTransfer store (some transactionId) (some account) (some b)
        transferId incomingTransactionId).2 account transactionId
      = some { orig with
          transferId := some transferId
          transferType := some "outgoing"
          relatedAccount := some b.toAccount
          category := "transfer"
          amount := -|orig.amount| } ∧
    getItem (convertTransactionToTransfer store (some transactionId) (some account) (some b)
        transferId incomingTransactionId).2 b.toAccount incomingTransactionId
      = some { account := b.toAccount
               transactionId := incomingTransactionId
               date := orig.date
               description := orig.description
               currency := orig.currency
               amount := |orig.amount|
               fee := 0
               category := "transfer"
               transferId := some transferId
               transferType := some "incoming"
               relatedAccount := some account } := by
  have hkeys := getItem_some_keys hget
  have hcond1 : (strFalsy (some transactionId) || strFalsy (some account)
      || (some b).isNone) = false := by
    simp [strFalsy, htid, hacc]
  unfold convertTransactionToTransfer
  rw [if_neg (by rw [hcond1]; simp)]
  simp only [Option.getD_some]
  rw [if_neg (by simp [hto]), if_neg (by simp [hne])]
  simp only [hget, hplain, Option.isSome_none, Bool.false_eq_true, if_false]
  refine ⟨trivial, ?_, ?_⟩
  · rw [getItem_putItem_other]
    · rw [← hkeys.1, ← hkeys.2]
      exact getItem_putItem_self _ _
    · intro hcontra
      exact hne hcontra.1
  · exact getItem_putItem_self _ _

/-- C4: for every transaction that already carries a transferType,
convertTransactionToTransfer is rejected with a conflict signal, no update
to that record is written, and no incoming-leg record is created — the store
is unchanged by the rejected call. -/
theorem convertTransactionToTransfer_already_rejected
    (store : List Transaction) (account transactionId : String) (b : RequestBody)
    (transferId incomingTransactionId : String) (orig : Transaction)
    (hacc : account ≠ "") (htid : transactionId ≠ "") (hto : b.toAccount ≠ "")
    (hne : account ≠ b.toAccount)
    (hget : getItem store account transactionId = some orig)
    (halready : orig.transferType.isSome = true) :
    convertTransactionToTransfer store (some transactionId) (some account) (some b)
        transferId incomingTransactionId
      = (.error .alreadyTransfer, store) := by
  have hcond1 : (strFalsy (some transactionId) || strFalsy (some account)
      || (some b).isNone) = false := by
    simp [strFalsy, htid, hacc]
  unfold convertTransactionToTransfer
  rw [if_neg (by rw [hcond1]; simp)]
  simp only [Option.getD_some]
  rw [if_neg (by simp [hto]), if_neg (by simp [hne])]
  simp only [hget, halready, if_true]

/-- C5: the incoming leg of any transfer always has fee 0, regardless of the
fee supplied to createTransfer and regardless of the original transaction's
fee in convertTransactionToTransfer; the supplied fee (default 0) is carried
only by the outgoing leg. -/
theorem transfer_incoming_fee_zero
    (store1 : List Transaction) (b : RequestBody)
    (transferId1 outgoingTransactionId incomingTransactionId1 : String)
    (outgoing incoming : Transaction)
    (store2 : List Transaction) (pathTransactionId queryAccount : Option String)
    (body : Option RequestBody) (transferId2 incomingTransactionId2 : String)
    (updated incoming2 : Transaction)
    (h1 : (createTransfer store1 b transferId1 outgoingTransactionId
      incomingTransactionId1).1 = .ok (outgoing, incoming))
    (h2 : (convertTransactionToTransfer store2 pathTransactionId queryAccount body
      transferId2 incomingTransactionId2).1 = .ok (updated, incoming2)) :
    incoming.fee = 0 ∧ incoming2.fee = 0 ∧ outgoing.fee = b.fee.getD 0 := by
  unfold createTransfer at h1
  unfold convertTransactionToTransfer at h2
  split at h1
  · simp at h1
  · split at h1
    · simp at h1
    · split at h1
      · simp at h1
      · simp only [Except.ok.injEq, Prod.mk.injEq] at h1
        obtain ⟨ho, hi⟩ := h1
        subst ho hi
        split at h2
        · simp at h2
        · dsimp only at h2
          split at h2
          · simp at h2
          · split at h2
            · simp at h2
            · split at h2
              · simp at h2
              · rename_i heq
                split at h2
                · simp at h2
                · simp only [Except.ok.injEq, Prod.mk.injEq] at h2
                  obtain ⟨hu, hi2⟩ := h2
                  subst hu hi2
                  exact ⟨rfl, rfl, rfl⟩

/-- C6: for every account X, createTransfer with fromAccount = toAccount = X
is rejected with a validation error before any write is issued, and
convertTransactionToTransfer with toAccount equal to the source account is
likewise rejected before any read or write; in both cases the store is left
unchanged. -/
theorem self_transfer_rejected
    (store1 : List Transaction) (b : RequestBody)
    (transferId1 outgoingTransactionId incomingTransactionId1 : String)
    (store2 : List Transaction) (pathTransactionId : Option String) (b2 : RequestBody)
    (account : String) (transferId2 incomingTransactionId2 : String)
    (h1 : b.fromAccount = b.toAccount)
    (h2 : account = b2.toAccount) :
    (∃ e, createTransfer store1 b transferId1 outgoingTransactionId
      incomingTransactionId1 = (.error e, store1)) ∧
    (∃ e, convertTransactionToTransfer store2 pathTransactionId (some account) (some b2)
      transferId2 incomingTransactionId2 = (.error e, store2)) := by
  constructor
  · unfold createTransfer
    split
    · exact ⟨.missingFields, rfl⟩
    · rw [if_pos (by simp [h1])]
      exact ⟨.sameAccount, rfl⟩
  · unfold convertTransactionToTransfer
    split
    · exact ⟨.missingParams, rfl⟩
    · dsimp only
      split
      · exact ⟨.missingToAccount, rfl⟩
      · simp only [Option.getD_some]
        rw [if_pos (by simp [h2])]
        exact ⟨.sameAccount, rfl⟩

/-- C10: createTransfer validates its required fields by JavaScript
truthiness, so a request whose amount field is present but equal to 0 is
rejected with the missing-required-fields validation error (status 400) and
no write is performed, even though every required field is present in the
body. -/
theorem createTransfer_zero_amount_rejected
    (store : List Transaction) (b : RequestBody)
    (transferId outgoingTransactionId incomingTransactionId : String)
    (hfrom : b.fromAccount ≠ "") (hto : b.toAccount ≠ "")
    (hdate : b.date ≠ "") (hdesc : b.description ≠ "")
    (hamt : b.amount = some 0) :
    createTransferHttp store (some b) transferId outgoingTransactionId incomingTransactionId
      = (⟨400, corsHeaders,
          .errorMsg "Missing required fields: fromAccount, toAccount, amount, date, description"⟩,
         store) := by
  have hfalsy : numFalsy b.amount = true := by
    rw [hamt]
    simp [numFalsy]
  unfold createTransferHttp createTransfer
  dsimp only
  rw [if_pos (by simp [hfalsy])]

/-- Witness for C1 at `wTransferBody`. -/
theorem createTransfer_legs_correct_witness :
    wOutgoing.account = wTransferBody.fromAccount ∧
    wOutgoing.amount = -|wTransferBody.amount.getD 0| ∧
    wIncoming.account = wTransferBody.toAccount ∧
    wIncoming.amount = |wTransferBody.amount.getD 0| ∧
    wOutgoing.transferId = some "tr1" ∧
    wIncoming.transferId = some "tr1" ∧
    wOutgoing.category = "transfer" ∧
    wIncoming.category = "transfer" ∧
    wOutgoing.transferType = some "outgoing" ∧
    wIncoming.transferType = some "incoming" ∧
    wOutgoing.relatedAccount = some wTransferBody.toAccount ∧
    wIncoming.relatedAccount = some wTransferBody.fromAccount ∧
    getItem (createTransfer [] wTransferBody "tr1" "out1" "in1").2
      wTransferBody.fromAccount "out1" = some wOutgoing ∧
    getItem (createTransfer [] wTransferBody "tr1" "out1" "in1").2
      wTransferBody.toAccount "in1" = some wIncoming :=
  createTransfer_legs_correct [] wTransferBody "tr1" "out1" "in1" wOutgoing wIncoming
    (by decide)

/-- Witness for C3 at `wPlainTxn`. -/
theorem convertTransactionToTransfer_promotes_witness :
    (convertTransactionToTransfer [wPlainTxn] (some "t1") (some "acc1")
        (some { toAccount := "acc2" }) "tr2" "in2").1
      = .ok
        ({ wPlainTxn with
            transferId := some "tr2"
            transferType := some "outgoing"
            relatedAccount := some (RequestBody.toAccount { toAccount := "acc2" })
            category := "transfer"
            amount := -|wPlainTxn.amount| },
         { account := RequestBody.toAccount { toAccount := "acc2" }
           transactionId := "in2"
           date := wPlainTxn.date
           description := wPlainTxn.description
           currency := wPlainTxn.currency
           amount := |wPlainTxn.amount|
           fee := 0
           category := "transfer"
           transferId := some "tr2"
           transferType := some "incoming"
           relatedAccount := some "acc1" }) ∧
    getItem (convertTransactionToTransfer [wPlainTxn] (some "t1") (some "acc1")
        (some { toAccount := "acc2" }) "tr2" "in2").2 "acc1" "t1"
      = some { wPlainTxn with
          transferId := some "tr2"
          transferType := some "outgoing"
          relatedAccount := some (RequestBody.toAccount { toAccount := "acc2" })
          category := "transfer"
          amount := -|wPlainTxn.amount| } ∧
    getItem (convertTransactionToTransfer [wPlainTxn] (some "t1") (some "acc1")
        (some { toAccount := "acc2" }) "tr2" "in2").2
      (RequestBody.toAccount { toAccount := "acc2" }) "in2"
      = some { account := RequestBody.toAccount { toAccount := "acc2" }
               transactionId := "in2"
               date := wPlainTxn.date
               description := wPlainTxn.description
               currency := wPlainTxn.currency
               amount := |wPlainTxn.amount|
               fee := 0
               category := "transfer"
               transferId := some "tr2"
               transferType := some "incoming"
               relatedAccount := some "acc1" } :=
  convertTransactionToTransfer_promotes [wPlainTxn] "acc1" "t1" { toAccount := "acc2" }
    "tr2" "in2" wPlainTxn (by decide) (by decide) (by decide) (by decide) (by decide)
    (by decide)

/-- Witness for C4 at `wAlreadyLeg`. -/
theorem convertTransactionToTransfer_already_rejected_witness :
    convertTransactionToTransfer [wAlreadyLeg] (some "t2") (some "acc1")
        (some { toAccount := "acc2" }) "tr3" "in3"
      = (.error .alreadyTransfer, [wAlreadyLeg]) :=
  convertTransactionToTransfer_already_rejected [wAlreadyLeg] "acc1" "t2"
    { toAccount := "acc2" } "tr3" "in3" wAlreadyLeg (by decide) (by decide) (by decide)
    (by decide) (by decide) (by decide)

/-- Witness for C5 at `wTransferBody` and `wPlainTxn`. -/
theorem transfer_incoming_fee_zero_witness :
    wIncoming.fee = 0 ∧ wPromotedIncoming.fee = 0 ∧
    wOutgoing.fee = wTransferBody.fee.getD 0 :=
  transfer_incoming_fee_zero [] wTransferBody "tr1" "out1" "in1" wOutgoing wIncoming
    [wPlainTxn] (some "t1") (some "acc1") (some { toAccount := "acc2" }) "tr2" "in2"
    wPromoted wPromotedIncoming (by decide) (by decide)

/-- Witness for C6 at `wSelfBody` and a self-targeting conversion. -/
theorem self_transfer_rejected_witness :
    (∃ e, createTransfer [] wSelfBody "tr" "o" "i" = (.error e, [])) ∧
    (∃ e, convertTransactionToTransfer [wPlainTxn] (some "t1") (some "acc1")
      (some { toAccount := "acc1" }) "tr" "in" = (.error e, [wPlainTxn])) :=
  self_transfer_rejected [] wSelfBody "tr" "o" "i" [wPlainTxn] (some "t1")
    { toAccount := "acc1" } "acc1" "tr" "in" (by decide) (by decide)

/-- Witness for C10 at `wZeroAmountBody`. -/
theorem createTransfer_zero_amount_rejected_witness :
    createTransferHttp [] (some wZeroAmountBody) "tr" "o" "i"
      = (⟨400, corsHeaders,
          .errorMsg "Missing required fields: fromAccount, toAccount, amount, date, description"⟩,
         []) :=
  createTransfer_zero_amount_rejected [] wZeroAmountBody "tr" "o" "i"
    (by decide) (by decide) (by decide) (by decide) (by decide)

/-- C2: bulkUpdateByDescription(account = A, description = D, newCategory = C)
rewrites the category of exactly those transactions in account A whose
description equals D character-for-character (case-sensitive) and no others,
and returns the count of transactions actually rewritten.  (Settled against
the spec-modelled definition, the implementation being absent from `src/`.) -/
theorem bulkUpdateByDescription_exact
    (store : List Transaction) (account description newCategory : String)
    (r : BulkUpdateResult)
    (hacc : account ≠ "") (hdesc : description ≠ "") (hcat : newCategory ≠ "")
    (hr : bulkUpdateByDescription store account description newCategory = .ok r) :
    r.updatedCount
      = (store.filter
          (fun t => t.account == account && t.description == description)).length ∧
    List.Forall₂
      (fun t u =>
        (t.account = account ∧ t.description = description →
          u = { t with category := newCategory }) ∧
        (¬(t.account = account ∧ t.description = description) → u = t))
      store r.store := by
  unfold bulkUpdateByDescription at hr
  rw [if_neg (by simp [hacc, hdesc, hcat])] at hr
  dsimp only at hr
  split at hr
  · rename_i hempty
    simp only [Except.ok.injEq] at hr
    subst hr
    have hnone : ∀ t ∈ store, ¬((t.account == account) = true) := by
      rw [List.isEmpty_iff] at hempty
      exact List.filter_eq_nil_iff.mp hempty
    constructor
    · have : store.filter
          (fun t => t.account == account && t.description == description) = [] := by
        rw [List.filter_eq_nil_iff]
        intro t ht
        simp only [Bool.and_eq_true]
        intro hcontra
        exact hnone t ht hcontra.1
      rw [this]
      rfl
    · rw [List.forall₂_same]
      intro t ht
      refine ⟨?_, fun _ => rfl⟩
      intro hmatch
      exact absurd (beq_iff_eq.mpr hmatch.1) (hnone t ht)
  · split at hr
    · rename_i hempty
      simp only [Except.ok.injEq] at hr
      subst hr
      have hnone : ∀ t ∈ store,
          ¬((t.account == account && t.description == description) = true) := by
        rw [List.isEmpty_iff] at hempty
        exact List.filter_eq_nil_iff.mp hempty
      constructor
      · rw [List.isEmpty_iff] at hempty
        rw [hempty]
        rfl
      · rw [List.forall₂_same]
        intro t ht
        refine ⟨?_, fun _ => rfl⟩
        intro hmatch
        refine absurd ?_ (hnone t ht)
        simp only [Bool.and_eq_true, beq_iff_eq]
        exact hmatch
    · simp only [Except.ok.injEq] at hr
      subst hr
      refine ⟨rfl, ?_⟩
      rw [List.forall₂_map_right_iff, List.forall₂_same]
      intro t _
      by_cases hmatch : t.account = account ∧ t.description = description
      · have hb : (t.account == account && t.description == description) = true := by
          simp only [Bool.and_eq_true, beq_iff_eq]
          exact hmatch
        refine ⟨fun _ => ?_, fun hcontra => absurd hmatch hcontra⟩
        rw [if_pos hb]
      · have hb : ¬((t.account == account && t.description == description) = true) := by
          simp only [Bool.and_eq_true, beq_iff_eq]
          exact hmatch
        refine ⟨fun hcontra => absurd hcontra hmatch, fun _ => ?_⟩
        rw [if_neg hb]

/-- Witness for C2 on a three-transaction store. -/
theorem bulkUpdateByDescription_exact_witness :
    (BulkUpdateResult.mk [{ wCoffee1 with category := "drinks" }, wTea, wCoffee2]
        1 "Bulk update completed").updatedCount
      = ([wCoffee1, wTea, wCoffee2].filter
          (fun t => t.account == "acc1" && t.description == "coffee")).length ∧
    List.Forall₂
      (fun t u =>
        (t.account = "acc1" ∧ t.description = "coffee" →
          u = { t with category := "drinks" }) ∧
        (¬(t.account = "acc1" ∧ t.description = "coffee") → u = t))
      [wCoffee1, wTea, wCoffee2]
      (BulkUpdateResult.mk [{ wCoffee1 with category := "drinks" }, wTea, wCoffee2]
        1 "Bulk update completed").store :=
  bulkUpdateByDescription_exact [wCoffee1, wTea, wCoffee2] "acc1" "coffee" "drinks"
    (BulkUpdateResult.mk [{ wCoffee1 with category := "drinks" }, wTea, wCoffee2]
      1 "Bulk update completed")
    (by decide) (by decide) (by decide) (by decide)

/-- C7: the claim asserts that for an empty transaction list and any current
date the aggregator returns a zero summary and exactly 12 monthly buckets
(the trailing 12 calendar months).  The summary part holds, and on
month-interior current dates (e.g. 2025-09-15) there are indeed 12 zero
buckets; but on the current date 2025-10-31 the `setMonth` day-of-month
overflow makes trailing month keys collide (Feb 31 → Mar 3, etc.), so the
initialization loop produces only 7 distinct buckets, contradicting the
claim. -/
theorem calculateMonthlyTrends_monthEnd_bucket_loss :
    calculateSummary [] = ⟨0, 0, 0, 0⟩ ∧
    (calculateMonthlyTrends ⟨2025, 8, 15⟩ []).length = 12 ∧
    ((calculateMonthlyTrends ⟨2025, 8, 15⟩ []).all
      (fun b => b.income == 0 && b.expenses == 0)) = true ∧
    (calculateMonthlyTrends ⟨2025, 9, 31⟩ []).length = 7 ∧
    ¬(calculateMonthlyTrends ⟨2025, 9, 31⟩ []).length = 12 := by
  decide

/-! ## Category-breakdown lemmas (C8) -/

theorem sumVals_alSet (m : List (String × ℚ)) (k : String) (v : ℚ) :
    sumVals (alSet m k v) = sumVals m + v - (alGet? m k).getD 0 := by
  induction m with
  | nil => simp [alSet, alGet?, sumVals]
  | cons p rest ih =>
    by_cases hk : p.1 == k
    · obtain ⟨k', v'⟩ := p
      simp only [alSet, alGet?, hk, if_pos, sumVals, List.map_cons, List.sum_cons,
        Option.getD_some] at *
      ring
    · obtain ⟨k', v'⟩ := p
      simp only [alSet, alGet?, hk, if_neg, Bool.false_eq_true, ite_false,
        sumVals, List.map_cons, List.sum_cons] at *
      rw [ih]
      ring

theorem expense_fold_invariant (txs : List Transaction)
    (acc : List (String × ℚ) × ℚ) :
    sumVals (txs.foldl expenseStep acc).1 - (txs.foldl expenseStep acc).2
      = sumVals acc.1 - acc.2 := by
  induction txs generalizing acc with
  | nil => rfl
  | cons t rest ih =>
    rw [List.foldl_cons, ih]
    unfold expenseStep
    split
    · simp only [sumVals_alSet]
      ring
    · rfl

/-- The running `totalExpenses` accumulator equals the sum of the
per-category totals. -/
theorem expenseTotals_sum (txs : List Transaction) :
    sumVals (expenseTotals txs).1 = (expenseTotals txs).2 := by
  have h := expense_fold_invariant txs ([], 0)
  have h0 : sumVals ([] : List (String × ℚ)) - (0 : ℚ) = 0 := by
    simp [sumVals]
  unfold expenseTotals
  rw [h0] at h
  linarith

/-- `jsRound` agrees with the `Int.floor` of `q + 1/2`. -/
theorem jsRound_eq_floor (q : ℚ) : jsRound q = ⌊q + 1 / 2⌋ := by
  rw [jsRound, Rat.floor_def', Rat.floor_def]

/-- `Math.round(x) / 100` differs from `x / 100` by at most `1/200`. -/
theorem abs_jsRound_div_sub_le (x : ℚ) :
    |(jsRound x : ℚ) / 100 - x / 100| ≤ 1 / 200 := by
  rw [jsRound_eq_floor]
  have h1 : ((⌊x + 1 / 2⌋ : ℤ) : ℚ) ≤ x + 1 / 2 := Int.floor_le _
  have h2 : x + 1 / 2 < ((⌊x + 1 / 2⌋ : ℤ) : ℚ) + 1 := Int.lt_floor_add_one _
  rw [abs_le]
  constructor <;> linarith

/-- Triangle-inequality bound on the difference of two mapped sums. -/
theorem sum_map_sub_abs_le {α : Type} (l : List α) (f g : α → ℚ) (c : ℚ)
    (hc : 0 ≤ c) (h : ∀ x ∈ l, |f x - g x| ≤ c) :
    |(l.map f).sum - (l.map g).sum| ≤ l.length * c := by
  induction l with
  | nil => simp
  | cons a rest ih =>
    simp only [List.map_cons, List.sum_cons, List.length_cons]
    have ha := h a (by simp)
    have hrest := ih (fun x hx => h x (List.mem_cons_of_mem a hx))
    have htri : |f a + (rest.map f).sum - (g a + (rest.map g).sum)|
        ≤ |f a - g a| + |(rest.map f).sum - (rest.map g).sum| := by
      have : f a + (rest.map f).sum - (g a + (rest.map g).sum)
          = (f a - g a) + ((rest.map f).sum - (rest.map g).sum) := by ring
      rw [this]
      exact abs_add _ _
    push_cast
    push_cast at hrest
    nlinarith [htri, ha, hrest]

/-- C8: in the Analytics category breakdown (built from expense transactions
only), when total expense magnitude is positive the reported per-category
percentages sum to 100 within rounding tolerance (at most 1/200 per
category), when total expense magnitude is 0 every reported percentage is 0,
and the breakdown is sorted descending by amount. -/
theorem categoryBreakdown_percentages (txs : List Transaction)
    (cmap : List (String × String)) :
    ((expenseTotals txs).2 > 0 →
      |((calculateCategoryBreakdown txs cmap).map (fun c => c.percentage)).sum - 100|
        ≤ ((calculateCategoryBreakdown txs cmap).length : ℚ) * (1 / 200)) ∧
    ((expenseTotals txs).2 = 0 →
      ∀ c ∈ calculateCategoryBreakdown txs cmap, c.percentage = 0) ∧
    List.Pairwise (fun a b => b.amount ≤ a.amount)
      (calculateCategoryBreakdown txs cmap) := by
  have hperm : List.Perm (calculateCategoryBreakdown txs cmap)
      ((expenseTotals txs).1.map (fun p =>
          ({ categoryId := p.1
             category := (alGet? cmap p.1).getD p.1
             amount := roundCents p.2
             percentage :=
               if (expenseTotals txs).2 > 0 then
                 (jsRound (p.2 / (expenseTotals txs).2 * 10000) : ℚ) / 100
               else 0 } : CategoryData))) := by
    unfold calculateCategoryBreakdown
    exact List.mergeSort_perm _ _
  refine ⟨?_, ?_, ?_⟩
  · intro hT
    have hsum := (hperm.map (fun c => c.percentage)).sum_eq
    have hlen := hperm.length_eq
    rw [hsum, hlen, List.map_map, List.length_map]
    have hmapeq : (expenseTotals txs).1.map
          ((fun c => c.percentage) ∘ (fun p =>
            ({ categoryId := p.1
               category := (alGet? cmap p.1).getD p.1
               amount := roundCents p.2
               percentage :=
                 if (expenseTotals txs).2 > 0 then
                   (jsRound (p.2 / (expenseTotals txs).2 * 10000) : ℚ) / 100
                 else 0 } : CategoryData)))
        = (expenseTotals txs).1.map (fun p =>
            (jsRound (p.2 / (expenseTotals txs).2 * 10000) : ℚ) / 100) :=
      List.map_congr_left (fun p _ => by simp [Function.comp, if_pos hT])
    rw [hmapeq]
    have hgsum : ((expenseTotals txs).1.map (fun p =>
        (p.2 / (expenseTotals txs).2 * 10000) / 100)).sum = 100 := by
      have hTne : (expenseTotals txs).2 ≠ 0 := ne_of_gt hT
      have hrw : (expenseTotals txs).1.map (fun p =>
            (p.2 / (expenseTotals txs).2 * 10000) / 100)
          = (expenseTotals txs).1.map (fun p =>
            Prod.snd p * (100 / (expenseTotals txs).2)) :=
        List.map_congr_left (fun p _ => by field_simp; ring)
      rw [hrw, List.sum_map_mul_right]
      have hsv : ((expenseTotals txs).1.map Prod.snd).sum = (expenseTotals txs).2 :=
        expenseTotals_sum txs
      rw [hsv]
      field_simp
    have hpt : ∀ p ∈ (expenseTotals txs).1,
        |(jsRound (p.2 / (expenseTotals txs).2 * 10000) : ℚ) / 100
          - (p.2 / (expenseTotals txs).2 * 10000) / 100| ≤ 1 / 200 :=
      fun p _ => abs_jsRound_div_sub_le _
    have hbound := sum_map_sub_abs_le (expenseTotals txs).1
      (fun p => (jsRound (p.2 / (expenseTotals txs).2 * 10000) : ℚ) / 100)
      (fun p => (p.2 / (expenseTotals txs).2 * 10000) / 100)
      (1 / 200) (by norm_num) hpt
    rw [hgsum] at hbound
    exact hbound
  · intro hT0 c hc
    rw [hperm.mem_iff] at hc
    obtain ⟨p, hp, rfl⟩ := List.mem_map.mp hc
    show (if (expenseTotals txs).2 > 0 then
        (jsRound (p.2 / (expenseTotals txs).2 * 10000) : ℚ) / 100
      else 0) = 0
    rw [hT0]
    norm_num
  · unfold calculateCategoryBreakdown
    have hs := @List.sorted_mergeSort CategoryData
      (fun (a b : CategoryData) => decide (b.amount ≤ a.amount))
      (fun a b c hab hbc => by
        simp only [decide_eq_true_eq] at *
        exact le_trans hbc hab)
      (fun a b => by
        simp only [Bool.or_eq_true, decide_eq_true_eq]
        exact le_total b.amount a.amount)
      ((expenseTotals txs).1.map (fun p =>
        ({ categoryId := p.1
           category := (alGet? cmap p.1).getD p.1
           amount := roundCents p.2
           percentage :=
             if (expenseTotals txs).2 > 0 then
               (jsRound (p.2 / (expenseTotals txs).2 * 10000) : ℚ) / 100
             else 0 } : CategoryData)))
    exact hs.imp (fun h => by simpa using h)

/-- Witness for C8: a store with two expense categories (total 53) and an
income-only store (total expenses 0). -/
theorem categoryBreakdown_percentages_witness :
    (|((calculateCategoryBreakdown [wCoffee1, wPlainTxn] []).map
        (fun c => c.percentage)).sum - 100|
      ≤ ((calculateCategoryBreakdown [wCoffee1, wPlainTxn] []).length : ℚ) * (1 / 200)) ∧
    (∀ c ∈ calculateCategoryBreakdown [wIncoming] [], c.percentage = 0) ∧
    List.Pairwise (fun a b => b.amount ≤ a.amount)
      (calculateCategoryBreakdown [wCoffee1, wPlainTxn] []) :=
  ⟨(categoryBreakdown_percentages [wCoffee1, wPlainTxn] []).1 (by decide),
   (categoryBreakdown_percentages [wIncoming] []).2.1 (by decide),
   (categoryBreakdown_percentages [wCoffee1, wPlainTxn] []).2.2⟩

/-! ## CORS lemmas (C9) -/

theorem headers_createTransactionHttp (store : List Transaction)
    (body : Option RequestBody) (transactionId : String) :
    (createTransactionHttp store body transactionId).1.headers = corsHeaders := by
  unfold createTransactionHttp
  repeat' first | split | (dsimp only; split)
  all_goals rfl

theorem headers_getTransactionsHttp (store : List Transaction)
    (qa qc qd : Option String) :
    (getTransactionsHttp store qa qc qd).1.headers = corsHeaders := by
  unfold getTransactionsHttp
  repeat' first | split | (dsimp only; split)
  all_goals rfl

theorem headers_getTransactionHttp (store : List Transaction)
    (pt qa : Option String) :
    (getTransactionHttp store pt qa).1.headers = corsHeaders := by
  unfold getTransactionHttp
  repeat' first | split | (dsimp only; split)
  all_goals rfl

theorem headers_updateTransactionHttp (store : List Transaction)
    (pt qa : Option String) (body : Option RequestBody)
    (updateFields : List (String × String)) :
    (updateTransactionHttp store pt qa body updateFields).1.headers = corsHeaders := by
  unfold updateTransactionHttp
  repeat' first | split | (dsimp only; split)
  all_goals rfl

theorem headers_deleteTransactionHttp (store : List Transaction)
    (pt qa : Option String) :
    (deleteTransactionHttp store pt qa).1.headers = corsHeaders := by
  unfold deleteTransactionHttp
  repeat' first | split | (dsimp only; split)
  all_goals rfl

theorem headers_createTransferHttp (store : List Transaction)
    (body : Option RequestBody) (t o i : String) :
    (createTransferHttp store body t o i).1.headers = corsHeaders := by
  unfold createTransferHttp
  repeat' first | split | (dsimp only; split)
  all_goals rfl

theorem headers_convertTransactionToTransferHttp (store : List Transaction)
    (pt qa : Option String) (body : Option RequestBody) (t i : String) :
    (convertTransactionToTransferHttp store pt qa body t i).1.headers = corsHeaders := by
  unfold convertTransactionToTransferHttp
  repeat' first | split | (dsimp only; split)
  all_goals rfl

theorem headers_getAnalyticsHttp (store : List Transaction) (qa : Option String)
    (cmap : List (String × String)) (today : JsDate) :
    (getAnalyticsHttp store qa cmap today).headers = corsHeaders := by
  unfold getAnalyticsHttp
  repeat' first | split | (dsimp only; split)
  all_goals rfl

/-- C9: every response of the transactions handler and of the analytics
handler carries the permissive cross-origin headers (including
`Access-Control-Allow-Origin: *`), error responses included, and every
request with method OPTIONS is answered with status 200 and an empty
body. -/
theorem handlers_cors_and_options (e : ApiEvent) (store : List Transaction)
    (uuid1 uuid2 uuid3 : String) (cmap : List (String × String)) (today : JsDate) :
    (transactionsHandler e store uuid1 uuid2 uuid3).1.headers = corsHeaders ∧
    (analyticsHandler e store cmap today).headers = corsHeaders ∧
    ("Access-Control-Allow-Origin", "*") ∈
      (transactionsHandler e store uuid1 uuid2 uuid3).1.headers ∧
    ("Access-Control-Allow-Origin", "*") ∈ (analyticsHandler e store cmap today).headers ∧
    (e.httpMethod = "OPTIONS" →
      (transactionsHandler e store uuid1 uuid2 uuid3).1
          = ⟨200, corsHeaders, .empty⟩ ∧
        analyticsHandler e store cmap today = ⟨200, corsHeaders, .empty⟩) := by
  have h1 : (transactionsHandler e store uuid1 uuid2 uuid3).1.headers = corsHeaders := by
    unfold transactionsHandler
    repeat' split
    all_goals
      first
      | rfl
      | apply headers_createTransactionHttp
      | apply headers_createTransferHttp
      | apply headers_getTransactionsHttp
      | apply headers_getTransactionHttp
      | apply headers_convertTransactionToTransferHttp
      | apply headers_updateTransactionHttp
      | apply headers_deleteTransactionHttp
  have h2 : (analyticsHandler e store cmap today).headers = corsHeaders := by
    unfold analyticsHandler
    repeat' split
    all_goals
      first
      | rfl
      | apply headers_getAnalyticsHttp
  refine ⟨h1, h2, ?_, ?_, ?_⟩
  · rw [h1]
    simp [corsHeaders]
  · rw [h2]
    simp [corsHeaders]
  · intro hm
    constructor
    · unfold transactionsHandler
      rw [if_pos (by simp [hm])]
    · unfold analyticsHandler
      rw [if_pos (by simp [hm])]

/-- Witness for C9 at a concrete OPTIONS event. -/
theorem handlers_cors_and_options_witness :
    (transactionsHandler wOptionsEvent [] "u1" "u2" "u3").1
        = ⟨200, corsHeaders, .empty⟩ ∧
    analyticsHandler wOptionsEvent [] [] ⟨2025, 8, 15⟩ = ⟨200, corsHeaders, .empty⟩ ∧
    (transactionsHandler wOptionsEvent [] "u1" "u2" "u3").1.headers = corsHeaders :=
  ⟨((handlers_cors_and_options wOptionsEvent [] "u1" "u2" "u3" [] ⟨2025, 8, 15⟩).2.2.2.2
      rfl).1,
   ((handlers_cors_and_options wOptionsEvent [] "u1" "u2" "u3" [] ⟨2025, 8, 15⟩).2.2.2.2
      rfl).2,
   (handlers_cors_and_options wOptionsEvent [] "u1" "u2" "u3" [] ⟨2025, 8, 15⟩).1⟩

end FamilyBudget
